import Mathlib

/-!
Verification of the smart_factory real-time relay / safety-evaluation core.

The definitions below are a shallow embedding of the JavaScript source:
pure fragments become Lean functions, stateful fragments become explicit
state passing, JS numbers that only ever hold integral sensor values are
modelled as `Int`, and code that may throw is modelled with `Except`.
Where the repository ships only the REST callers of a backend endpoint
(the ACL evaluator, the sensor-limit evaluator and the alert
resolve/revert endpoints), the missing backend is modelled from the
specification text and each such definition is marked
`Modelled from the spec:` in its doc comment.
-/

namespace SmartFactory

universe u v w

variable {α : Type u} {δ : Type v} {ε : Type w}

/-! ## Client-side buffers (src/src/stores/iot.js, Dashboard view)

`addSystemAlert` / `addSensorReading` in the Pinia store and
`handleSystemAlert` / `handleSensorData` in the Dashboard view all follow
the same shape: `buf.unshift(entry)` followed by
`if (buf.length > cap) buf = buf.slice(0, cap)`.  The construction of the
entry record (spreading the payload and attaching `Date.now()` id and an
ISO timestamp) is abstracted: the already-built entry is the argument. -/

/-- `unshift` the new entry, then cap the buffer by `slice(0, cap)`
exactly when its length exceeds `cap`. -/
def unshiftCapped (cap : Nat) (entry : α) (buf : List α) : List α :=
  if (entry :: buf).length > cap then (entry :: buf).take cap else entry :: buf

/-- `addSystemAlert` of src/src/stores/iot.js: prepend, keep only the last
20 alerts. -/
def addSystemAlert (entry : α) (buf : List α) : List α :=
  unshiftCapped 20 entry buf

/-- `addSensorReading` of src/src/stores/iot.js: prepend, keep only the
last 50 readings. -/
def addSensorReading (entry : α) (buf : List α) : List α :=
  unshiftCapped 50 entry buf

/-- `handleSystemAlert` of the Dashboard view: prepend the alert record,
keep only the last 20 (the toast for critical levels does not touch the
buffer). -/
def handleSystemAlert (entry : α) (buf : List α) : List α :=
  unshiftCapped 20 entry buf

/-- `handleSensorData` of the Dashboard view: prepend the reading record,
keep only the last 50 (device auto-discovery does not touch the buffer). -/
def handleSensorData (entry : α) (buf : List α) : List α :=
  unshiftCapped 50 entry buf

lemma unshiftCapped_len (cap : Nat) (entry : α) (buf : List α) :
    (unshiftCapped cap entry buf).length ≤ cap := by
  unfold unshiftCapped
  split
  · simp
  · next h =>
      simp only [List.length_cons, Nat.not_lt] at h ⊢
      omega

lemma unshiftCapped_head (cap : Nat) (hcap : 0 < cap) (entry : α) (buf : List α) :
    (unshiftCapped cap entry buf).head? = some entry := by
  unfold unshiftCapped
  obtain ⟨n, rfl⟩ := Nat.exists_eq_succ_of_ne_zero (Nat.pos_iff_ne_zero.mp hcap)
  split
  · simp [List.take_succ_cons]
  · simp

lemma unshiftCapped_isPrefix (cap : Nat) (entry : α) (buf : List α) :
    (unshiftCapped cap entry buf) <+: entry :: buf := by
  unfold unshiftCapped
  split
  · exact List.take_prefix cap (entry :: buf)
  · exact List.prefix_refl _

/-- C9: after every insertion the client-side buffers are bounded and
ordered newest-first: the store's and the Dashboard's alert buffers hold
at most 20 entries and the reading buffers at most 50, the new entry sits
at index 0, and the result is a prefix of `entry :: old` (so only the
oldest entries are dropped, from the tail). -/
theorem buffers_bounded_newest_first (entry : α) (buf : List α) :
    ((addSystemAlert entry buf).length ≤ 20 ∧
      (addSystemAlert entry buf).head? = some entry ∧
      addSystemAlert entry buf <+: entry :: buf) ∧
    ((addSensorReading entry buf).length ≤ 50 ∧
      (addSensorReading entry buf).head? = some entry ∧
      addSensorReading entry buf <+: entry :: buf) ∧
    ((handleSystemAlert entry buf).length ≤ 20 ∧
      (handleSystemAlert entry buf).head? = some entry ∧
      handleSystemAlert entry buf <+: entry :: buf) ∧
    ((handleSensorData entry buf).length ≤ 50 ∧
      (handleSensorData entry buf).head? = some entry ∧
      handleSensorData entry buf <+: entry :: buf) := by
  refine ⟨⟨?_, ?_, ?_⟩, ⟨?_, ?_, ?_⟩, ⟨?_, ?_, ?_⟩, ?_, ?_, ?_⟩ <;>
    first
      | exact unshiftCapped_len _ entry buf
      | exact unshiftCapped_head _ (by norm_num) entry buf
      | exact unshiftCapped_isPrefix _ entry buf

/-! ## Handler dispatch (`notifyHandlers`, both websocket.js services)

`notifyHandlers(type, data)` looks up the handler list registered for the
message type and runs `handlers.forEach(handler => { try { handler(data) }
catch (error) { console.error(...) } })`.  A JS callback that may throw is
modelled as a function into `Except`; the per-handler `try/catch` turns a
throw into a logged error (`some e`) and moves on to the next handler. -/

/-- One `try { handler(data) } catch (error) {...}` step: the handler's
exception, if any, is caught and logged rather than propagated. -/
def runProtected (h : δ → Except ε Unit) (d : δ) : Option ε :=
  match h d with
  | Except.ok _ => none
  | Except.error e => some e

/-- `notifyHandlers` of websocket.js: run every registered handler for the
type in order, each under its own `try/catch`; the returned list is the
log of per-handler outcomes.  (When no handler list is registered for the
type, the `if (handlers)` guard makes this the empty run.) -/
def notifyHandlers (handlers : List (δ → Except ε Unit)) (d : δ) : List (Option ε) :=
  match handlers with
  | [] => []
  | h :: rest => runProtected h d :: notifyHandlers rest d

lemma notifyHandlers_append (l₁ l₂ : List (δ → Except ε Unit)) (d : δ) :
    notifyHandlers (l₁ ++ l₂) d = notifyHandlers l₁ d ++ notifyHandlers l₂ d := by
  induction l₁ with
  | nil => rfl
  | cons h rest ih => simp [notifyHandlers, ih]

lemma notifyHandlers_length (l : List (δ → Except ε Unit)) (d : δ) :
    (notifyHandlers l d).length = l.length := by
  induction l with
  | nil => rfl
  | cons h rest ih => simp [notifyHandlers, ih]

/-- C7: a handler that throws never aborts delivery to the others.  If the
handler `bad` throws `e` on `d`, dispatching to `pre ++ bad :: post` still
runs every handler of `pre` and of `post` exactly as it would alone, logs
`e` for `bad`, and the dispatch returns normally with one outcome per
registered handler. -/
theorem handler_failure_isolated (pre post : List (δ → Except ε Unit))
    (bad : δ → Except ε Unit) (d : δ) (e : ε) (hbad : bad d = Except.error e) :
    notifyHandlers (pre ++ bad :: post) d =
      notifyHandlers pre d ++ some e :: notifyHandlers post d ∧
    (notifyHandlers (pre ++ bad :: post) d).length = pre.length + 1 + post.length := by
  constructor
  · rw [notifyHandlers_append]
    simp [notifyHandlers, runProtected, hbad]
  · rw [notifyHandlers_length]
    simp
    omega

/-- Witness for C7 at a concrete handler list: the middle handler throws,
the outer two still run and succeed. -/
theorem handler_failure_isolated_witness :
    notifyHandlers
        ([fun _ => Except.ok ()] ++ (fun _ => Except.error "boom") ::
          [fun _ => Except.ok ()]) (0 : Nat) =
      notifyHandlers [fun _ => Except.ok ()] 0 ++
        some "boom" :: notifyHandlers [fun _ => Except.ok ()] 0 ∧
    (notifyHandlers
        ([fun _ => Except.ok ()] ++ (fun _ => Except.error "boom") ::
          [fun _ => Except.ok ()]) (0 : Nat)).length = 1 + 1 + 1 :=
  handler_failure_isolated [fun _ => Except.ok ()] [fun _ => Except.ok ()]
    (fun _ => Except.error "boom") 0 "boom" rfl

/-! ## `send` (both websocket.js services)

`send(message)` transmits only when `this.ws && this.ws.readyState ===
WebSocket.OPEN`; otherwise it logs a warning and returns.  In the OPEN
branch the stringify-and-send runs under `try/catch`, so even an
underlying send failure is logged, never thrown to the caller.  The
absent connection is `none`; a possibly-throwing underlying
`ws.send` is modelled by the `sendFails` flag. -/

inductive ReadyState
  | connecting
  | open
  | closing
  | closed
deriving DecidableEq, Repr

structure Socket where
  readyState : ReadyState
  /-- whether the underlying `ws.send`/stringify would throw -/
  sendFails : Bool
deriving DecidableEq, Repr

/-- What one `send(message)` call did: was the message handed to the
underlying socket, was the not-connected warning logged, was an
underlying-send error caught and logged. -/
structure SendOutcome where
  transmitted : Bool
  warned : Bool
  errorLogged : Bool
deriving DecidableEq, Repr

/-- `send` of websocket.js.  Totality of this function is the no-throw
property: every path returns an outcome to the caller. -/
def send (ws : Option Socket) : SendOutcome :=
  match ws with
  | some s =>
    if s.readyState = ReadyState.open then
      if s.sendFails then
        { transmitted := false, warned := false, errorLogged := true }
      else
        { transmitted := true, warned := false, errorLogged := false }
    else
      { transmitted := false, warned := true, errorLogged := false }
  | none => { transmitted := false, warned := true, errorLogged := false }

/-- C8: `send` on a connection whose socket is absent or not OPEN is a
warning-logging no-op (nothing transmitted, warning logged, no error
thrown), and a message is transmitted only when a socket exists and is
OPEN. -/
theorem send_not_open_noop (ws : Option Socket)
    (h : ∀ s, ws = some s → s.readyState ≠ ReadyState.open) :
    ((send ws).transmitted = false ∧ (send ws).warned = true) ∧
    (∀ ws' : Option Socket, (send ws').transmitted = true →
      ∃ s, ws' = some s ∧ s.readyState = ReadyState.open) := by
  constructor
  · match ws with
    | none => exact ⟨rfl, rfl⟩
    | some s =>
      have hs := h s rfl
      simp [send, hs]
  · intro ws' ht
    match ws' with
    | none => simp [send] at ht
    | some s =>
      refine ⟨s, rfl, ?_⟩
      by_contra hopen
      simp [send, hopen] at ht

/-- Witness for C8 at a closed socket. -/
theorem send_not_open_noop_witness :
    ((send (some { readyState := ReadyState.closed, sendFails := false })).transmitted = false ∧
      (send (some { readyState := ReadyState.closed, sendFails := false })).warned = true) ∧
    (∀ ws' : Option Socket, (send ws').transmitted = true →
      ∃ s, ws' = some s ∧ s.readyState = ReadyState.open) :=
  send_not_open_noop (some { readyState := ReadyState.closed, sendFails := false })
    (by intro s hs; cases hs; decide)

/-! ## Reconnect logic (src/frontend/src/services/websocket.js)

State of the `WebSocketService` fields that govern reconnection, plus a
count of pending `setTimeout` callbacks scheduled by `scheduleReconnect`.
`connect(url, userId)` is an explicit caller action and is outside the
event alphabet considered after `disconnect()`; the events that can still
occur on their own are the socket's `onclose` firing and a previously
scheduled reconnect timer firing. -/

structure WsService where
  /-- `isManuallyDisconnected` -/
  manual : Bool
  reconnectAttempts : Nat
  maxReconnectAttempts : Nat
  /-- `this.ws !== null` -/
  hasWs : Bool
  /-- `this.currentUrl && this.currentUserId` are both non-null -/
  hasTarget : Bool
  /-- reconnect timers scheduled but not yet fired -/
  pendingTimers : Nat
deriving DecidableEq, Repr

/-- The constructor state: `reconnectAttempts = 0`,
`maxReconnectAttempts = 5`, no socket, no target, nothing manual. -/
def initialService : WsService :=
  { manual := false, reconnectAttempts := 0, maxReconnectAttempts := 5,
    hasWs := false, hasTarget := false, pendingTimers := 0 }

/-- `disconnect()`: set the manual flag, force
`reconnectAttempts = maxReconnectAttempts`, close and null the socket,
null `currentUserId`/`currentUrl`. -/
def disconnect (s : WsService) : WsService :=
  { s with
      manual := true
      reconnectAttempts := s.maxReconnectAttempts
      hasWs := false
      hasTarget := false }

/-- `scheduleReconnect()`: bump the attempt counter and schedule a timer
(the delay value does not affect which transitions are possible). -/
def scheduleReconnect (s : WsService) : WsService :=
  { s with
      reconnectAttempts := s.reconnectAttempts + 1
      pendingTimers := s.pendingTimers + 1 }

/-- The `onclose` handler's reconnect step: schedule only when
`!this.isManuallyDisconnected && this.reconnectAttempts <
this.maxReconnectAttempts`. -/
def onClose (s : WsService) : WsService :=
  if !s.manual && s.reconnectAttempts < s.maxReconnectAttempts then
    scheduleReconnect s
  else s

/-- A pending reconnect timer fires: the `setTimeout` body re-checks
`!this.isManuallyDisconnected && this.currentUrl && this.currentUserId`
and only then calls `connect`.  Returns the new state and whether
`connect()` was called. -/
def timerFire (s : WsService) : WsService × Bool :=
  ({ s with pendingTimers := s.pendingTimers - 1 },
    !s.manual && s.hasTarget)

/-- The events that can occur without a new explicit `connect` call. -/
inductive WsEv
  | close
  | timer
deriving DecidableEq, Repr

def wsStep (s : WsService) (e : WsEv) : WsService × Bool :=
  match e with
  | WsEv.close => (onClose s, false)
  | WsEv.timer => timerFire s

/-- Whether any `connect()` call happens along a sequence of events. -/
def anyConnect (s : WsService) : List WsEv → Bool
  | [] => false
  | e :: es =>
    let (s', c) := wsStep s e
    c || anyConnect s' es

lemma wsStep_preserves_manual (s : WsService) (e : WsEv) :
    (wsStep s e).1.manual = s.manual := by
  cases e with
  | close =>
    simp only [wsStep, onClose]
    split <;> rfl
  | timer => rfl

lemma anyConnect_of_manual (s : WsService) (hm : s.manual = true) :
    ∀ evs : List WsEv, anyConnect s evs = false := by
  intro evs
  induction evs generalizing s with
  | nil => rfl
  | cons e es ih =>
    have hm' : (wsStep s e).1.manual = true := by
      rw [wsStep_preserves_manual]; exact hm
    cases e with
    | close => simpa [anyConnect, wsStep] using ih _ hm'
    | timer => simpa [anyConnect, wsStep, timerFire, hm] using ih _ hm'

/-- C10: after `disconnect()` the service never reconnects on its own.
`disconnect` sets the manual flag and forces the attempt counter to the
maximum (5 in the constructor state), the `onclose` handler then refuses
to schedule (it requires the flag clear and attempts below the maximum),
a pending timer re-checks the flag and does not call `connect`, and no
sequence of close/timer events after `disconnect` ever produces a
`connect()` call. -/
theorem no_reconnect_after_disconnect (s : WsService) (evs : List WsEv) :
    (disconnect s).manual = true ∧
    (disconnect s).reconnectAttempts = (disconnect s).maxReconnectAttempts ∧
    initialService.maxReconnectAttempts = 5 ∧
    onClose (disconnect s) = disconnect s ∧
    (timerFire (disconnect s)).2 = false ∧
    anyConnect (disconnect s) evs = false := by
  refine ⟨rfl, rfl, rfl, ?_, rfl, anyConnect_of_manual _ rfl evs⟩
  simp [onClose, disconnect]

/-! ## Sensor and Limit Config writes (src/frontend/src/views/SSManagement.vue)

`createSensor` / `updateSensor` gate the write on the computed
`addSelectedLimitsCount` / `editSelectedLimitsCount` (the number of limit
entries with `is_selected` truthy): when it exceeds 1 they set the error
message and return before calling the API, so the stored data is
untouched.  Otherwise they build the payload and call
`apiService.addSensor` / `apiService.updateSensor`; the backend store is
not in the repository, so the successful write is modelled as appending
the payload (create) or replacing the mutable fields of the sensor with
the matching `sensor_id` (update).  Numeric limits, sent through
`Number(...)`, are modelled as `Int`. -/

structure LimitConfig where
  name : String
  upper_limit : Int
  lower_limit : Int
  unit : String
  is_selected : Bool
deriving DecidableEq, Repr

structure Sensor where
  sensor_id : String
  pattern : String
  sensor_type : String
  is_active : Bool
  limits : List LimitConfig
deriving DecidableEq, Repr

/-- `addSelectedLimitsCount` / `editSelectedLimitsCount`:
`limits.filter(limit => limit.is_selected).length`. -/
def selectedLimitsCount (limits : List LimitConfig) : Nat :=
  (limits.filter (fun l => l.is_selected)).length

/-- Result of a write attempt: the stored sensors afterwards and the
error message shown in the form, if any. -/
structure WriteResult where
  store : List Sensor
  errorMsg : Option String
deriving DecidableEq, Repr

/-- `createSensor` of SSManagement.vue: reject when more than one limit
is selected (form error set, no API call, store untouched); otherwise
post the payload, which the backend stores. -/
def createSensor (store : List Sensor) (form : Sensor) : WriteResult :=
  if selectedLimitsCount form.limits > 1 then
    { store := store, errorMsg := some "You cannot select more than 1 limit." }
  else
    { store := store ++ [form], errorMsg := none }

/-- `updateSensor` of SSManagement.vue: reject when more than one limit
is selected; otherwise put the clean payload (`pattern`, `sensor_type`,
`is_active`, `limits`) for the sensor with this id. -/
def updateSensor (store : List Sensor) (sensorId : String) (form : Sensor) :
    WriteResult :=
  if selectedLimitsCount form.limits > 1 then
    { store := store, errorMsg := some "You cannot select more than 1 limit." }
  else
    { store := store.map (fun s =>
        if s.sensor_id = sensorId then
          { s with
              pattern := form.pattern
              sensor_type := form.sensor_type
              is_active := form.is_active
              limits := form.limits }
        else s)
      errorMsg := none }

/-- C1: the write-time gate on selected Limit Configs.  A create or
update whose limits select more than one config is rejected and leaves
the stored sensors unchanged; a selection of zero or one config is not
rejected; consequently, when every stored sensor has at most one selected
config, that invariant is preserved by both writes (the enforced bound is
`≤ 1`, not exactly one, since zero selected is accepted — as the claim's
note states). -/
theorem limit_selection_write_gate (store : List Sensor) (sensorId : String)
    (form : Sensor) (hinv : ∀ s ∈ store, selectedLimitsCount s.limits ≤ 1) :
    (selectedLimitsCount form.limits > 1 →
      (createSensor store form).store = store ∧
      (createSensor store form).errorMsg.isSome = true ∧
      (updateSensor store sensorId form).store = store ∧
      (updateSensor store sensorId form).errorMsg.isSome = true) ∧
    (selectedLimitsCount form.limits ≤ 1 →
      (createSensor store form).errorMsg = none ∧
      (updateSensor store sensorId form).errorMsg = none) ∧
    (∀ s ∈ (createSensor store form).store, selectedLimitsCount s.limits ≤ 1) ∧
    (∀ s ∈ (updateSensor store sensorId form).store,
      selectedLimitsCount s.limits ≤ 1) := by
  by_cases h : selectedLimitsCount form.limits > 1
  · refine ⟨fun _ => ?_, fun hle => absurd hle (by omega), ?_, ?_⟩
    · simp [createSensor, updateSensor, h]
    · simp only [createSensor, if_pos h]
      exact hinv
    · simp only [updateSensor, if_pos h]
      exact hinv
  · have hle : selectedLimitsCount form.limits ≤ 1 := by omega
    refine ⟨fun hgt => absurd hgt h, fun _ => ?_, ?_, ?_⟩
    · simp [createSensor, updateSensor, h]
    · simp only [createSensor, if_neg h]
      intro s hs
      rcases List.mem_append.mp hs with hmem | hmem
      · exact hinv s hmem
      · rcases List.mem_singleton.mp hmem with rfl
        exact hle
    · simp only [updateSensor, if_neg h]
      intro s hs
      rcases List.mem_map.mp hs with ⟨s₀, hmem, rfl⟩
      by_cases hid : s₀.sensor_id = sensorId
      · simpa [hid] using hle
      · simpa [hid] using hinv s₀ hmem

/-- Witness for C1: a form selecting two Limit Configs is rejected and
the one-sensor store (whose sensor has one selected config) is unchanged. -/
theorem limit_selection_write_gate_witness :
    0 < 1 ∧
    (createSensor
        [{ sensor_id := "temp01", pattern := "sf/sensors/+/temperature"
           sensor_type := "temperature", is_active := true
           limits := [{ name := "c1", upper_limit := 30, lower_limit := 10
                        unit := "C", is_selected := true }] }]
        { sensor_id := "temp02", pattern := "sf/x", sensor_type := "t"
          is_active := true
          limits := [{ name := "a", upper_limit := 1, lower_limit := 0
                       unit := "C", is_selected := true },
                     { name := "b", upper_limit := 2, lower_limit := 0
                       unit := "C", is_selected := true }] }).store =
      [{ sensor_id := "temp01", pattern := "sf/sensors/+/temperature"
         sensor_type := "temperature", is_active := true
         limits := [{ name := "c1", upper_limit := 30, lower_limit := 10
                      unit := "C", is_selected := true }] }] := by
  refine ⟨Nat.zero_lt_one, ?_⟩
  have h := limit_selection_write_gate
    [{ sensor_id := "temp01", pattern := "sf/sensors/+/temperature"
       sensor_type := "temperature", is_active := true
       limits := [{ name := "c1", upper_limit := 30, lower_limit := 10
                    unit := "C", is_selected := true }] }]
    "temp01"
    { sensor_id := "temp02", pattern := "sf/x", sensor_type := "t"
      is_active := true
      limits := [{ name := "a", upper_limit := 1, lower_limit := 0
                   unit := "C", is_selected := true },
                 { name := "b", upper_limit := 2, lower_limit := 0
                   unit := "C", is_selected := true }] }
    (by decide)
  exact (h.1 (by decide)).1

/-! ## Alert lifecycle (resolve / revert)

The repository ships only the REST callers
(`apiService.resolveAlert`/`revertAlert` and the SSManagement.vue
handlers); the endpoint that performs the transition is not under src/,
so the state transition itself is modelled from the specification.  The
client-side guards in SSManagement.vue are embedded from the source. -/

structure Alert where
  id : Nat
  sensor_id : String
  alert_type : String
  message : String
  triggered_value : Int
  limit_value : Int
  unit : String
  triggered_at : Nat
  is_resolved : Bool
  resolved_at : Option Nat
deriving DecidableEq, Repr

/-- Modelled from the spec: the backend `resolve(alert_id)` transition of
the Alert Lifecycle Manager (§4.3), whose implementation is not in the
repository.  "Triggered → Resolved: explicit resolve call; sets
resolved_at = now; rejects (no-op, returns current state) if already
resolved." -/
def resolve (a : Alert) (now : Nat) : Alert :=
  if a.is_resolved then a
  else { a with
          is_resolved := true
          resolved_at := some now }

/-- Modelled from the spec: the backend `revert(alert_id)` transition of
the Alert Lifecycle Manager (§4.3), whose implementation is not in the
repository.  "Resolved → Triggered (revert): explicit revert call;
clears resolved_at; rejects if currently unresolved." -/
def revert (a : Alert) : Alert :=
  if a.is_resolved then
    { a with
        is_resolved := false
        resolved_at := none }
  else a

/-- The guard of `resolveAlert` in SSManagement.vue:
`if (alert.is_resolved) return;` — returns whether the resolve API call
is issued at all. -/
def resolveAlertCallsApi (a : Alert) : Bool :=
  !a.is_resolved

/-- The guard of `revertAlert` in SSManagement.vue:
`if (!alert.is_resolved) return;` — returns whether the revert API call
is issued at all. -/
def revertAlertCallsApi (a : Alert) : Bool :=
  a.is_resolved

/-- C2: `resolve` on an already-resolved alert is a no-op returning the
current state (no field changes) and the client does not even issue the
call; `revert` on an unresolved alert is likewise a no-op and not
issued; on the valid transitions `resolve` sets `resolved_at = now` and
`revert` clears it. -/
theorem alert_lifecycle_transitions (a : Alert) (now : Nat) :
    (a.is_resolved = true →
      resolve a now = a ∧ resolveAlertCallsApi a = false) ∧
    (a.is_resolved = false →
      revert a = a ∧ revertAlertCallsApi a = false) ∧
    (a.is_resolved = false →
      (resolve a now).is_resolved = true ∧
      (resolve a now).resolved_at = some now) ∧
    (a.is_resolved = true →
      (revert a).is_resolved = false ∧ (revert a).resolved_at = none) := by
  refine ⟨fun h => ?_, fun h => ?_, fun h => ?_, fun h => ?_⟩ <;>
    simp [resolve, revert, resolveAlertCallsApi, revertAlertCallsApi, h]

/-- Witness for C2 at a concrete resolved alert and a concrete
unresolved alert. -/
theorem alert_lifecycle_transitions_witness :
    (resolve
        { id := 1, sensor_id := "temp01", alert_type := "upper_breach"
          message := "m", triggered_value := 35, limit_value := 30
          unit := "C", triggered_at := 100, is_resolved := true
          resolved_at := some 200 } 300 =
      { id := 1, sensor_id := "temp01", alert_type := "upper_breach"
        message := "m", triggered_value := 35, limit_value := 30
        unit := "C", triggered_at := 100, is_resolved := true
        resolved_at := some 200 }) ∧
    ((resolve
        { id := 2, sensor_id := "temp01", alert_type := "upper_breach"
          message := "m", triggered_value := 35, limit_value := 30
          unit := "C", triggered_at := 100, is_resolved := false
          resolved_at := none } 300).resolved_at = some 300) := by
  constructor
  · exact ((alert_lifecycle_transitions
      { id := 1, sensor_id := "temp01", alert_type := "upper_breach"
        message := "m", triggered_value := 35, limit_value := 30
        unit := "C", triggered_at := 100, is_resolved := true
        resolved_at := some 200 } 300).1 rfl).1
  · exact ((alert_lifecycle_transitions
      { id := 2, sensor_id := "temp01", alert_type := "upper_breach"
        message := "m", triggered_value := 35, limit_value := 30
        unit := "C", triggered_at := 100, is_resolved := false
        resolved_at := none } 300).2.2.1 rfl).2

/-! ## Sensor Limit Evaluator (`evaluate` behind `POST /api/ss/check`)

The repository contains only the caller (`apiService.checkAlert` and the
SSManagement test form); the evaluator itself is not under src/, so it is
modelled from the specification (§4.2). -/

inductive AlertType
  | upper_breach
  | lower_breach
deriving DecidableEq, Repr

structure BreachResult where
  alert : Bool
  alert_type : Option AlertType
  limit_value : Option Int
deriving DecidableEq, Repr

inductive EvalError
  /-- unit mismatch between reading and Limit Config: validation error -/
  | unitMismatch
  /-- no sensor with the given id: configuration error -/
  | sensorNotFound
deriving DecidableEq, Repr

def noBreach : BreachResult :=
  { alert := false, alert_type := none, limit_value := none }

/-- The single Limit Config with `is_selected = true` (first such entry
of the ordered list). -/
def selectedLimit (s : Sensor) : Option LimitConfig :=
  s.limits.find? (fun l => l.is_selected)

/-- Modelled from the spec: the backend
`evaluate(sensor_id, value, unit)` of the Sensor Limit Evaluator (§4.2),
whose implementation is not in the repository.  Resolves the sensor by
id; uses the single selected Limit Config (none selected → no-breach,
fail-open); a unit differing from the config's unit is a validation
error, never coerced; `value > upper_limit` is an `upper_breach` and
`value < lower_limit` a `lower_breach`, each reporting the crossed
limit. -/
def evaluate (sensors : List Sensor) (sensorId : String) (value : Int)
    (unit : String) : Except EvalError BreachResult :=
  match sensors.find? (fun s => s.sensor_id = sensorId) with
  | none => Except.error EvalError.sensorNotFound
  | some s =>
    match selectedLimit s with
    | none => Except.ok noBreach
    | some lc =>
      if unit ≠ lc.unit then Except.error EvalError.unitMismatch
      else if value > lc.upper_limit then
        Except.ok { alert := true, alert_type := some AlertType.upper_breach
                    limit_value := some lc.upper_limit }
      else if value < lc.lower_limit then
        Except.ok { alert := true, alert_type := some AlertType.lower_breach
                    limit_value := some lc.lower_limit }
      else Except.ok noBreach

/-- C3: against the selected Limit Config of the resolved sensor, a value
above `upper_limit` is an `upper_breach` reporting the upper limit, a
value below `lower_limit` is a `lower_breach` reporting the lower limit,
a value within `[lower_limit, upper_limit]` is no breach, and a unit
differing from the config's unit is rejected as a validation error, never
coerced. -/
theorem evaluate_breach_cases (sensors : List Sensor) (sensorId : String)
    (value : Int) (unit : String) (s : Sensor) (lc : LimitConfig)
    (hs : sensors.find? (fun s => s.sensor_id = sensorId) = some s)
    (hl : selectedLimit s = some lc)
    (hcfg : lc.lower_limit ≤ lc.upper_limit) :
    (unit = lc.unit →
      (value > lc.upper_limit →
        evaluate sensors sensorId value unit =
          Except.ok { alert := true, alert_type := some AlertType.upper_breach
                      limit_value := some lc.upper_limit }) ∧
      (value < lc.lower_limit →
        evaluate sensors sensorId value unit =
          Except.ok { alert := true, alert_type := some AlertType.lower_breach
                      limit_value := some lc.lower_limit }) ∧
      (lc.lower_limit ≤ value → value ≤ lc.upper_limit →
        evaluate sensors sensorId value unit = Except.ok noBreach)) ∧
    (unit ≠ lc.unit →
      evaluate sensors sensorId value unit =
        Except.error EvalError.unitMismatch) := by
  constructor
  · intro hu
    refine ⟨fun hgt => ?_, fun hlt => ?_, fun hge hle => ?_⟩
    · simp [evaluate, hs, hl, hu, hgt]
    · have hngt : ¬value > lc.upper_limit := by omega
      simp [evaluate, hs, hl, hu, hngt, hlt]
    · have hngt : ¬value > lc.upper_limit := not_lt.mpr hle
      have hnlt : ¬value < lc.lower_limit := not_lt.mpr hge
      simp [evaluate, hs, hl, hu, hngt, hnlt, noBreach]
  · intro hu
    simp [evaluate, hs, hl, hu]

/-- Witness for C3: the spec's scenario — sensor `temp01` with selected
limit `upper = 30, lower = 10, unit = C`; the reading
`{value: 35, unit: "C"}` breaches with `alert_type = upper_breach` and
`limit_value = 30`. -/
theorem evaluate_breach_cases_witness :
    evaluate
        [{ sensor_id := "temp01", pattern := "sf/sensors/+/temperature"
           sensor_type := "temperature", is_active := true
           limits := [{ name := "c1", upper_limit := 30, lower_limit := 10
                        unit := "C", is_selected := true }] }]
        "temp01" 35 "C" =
      Except.ok { alert := true, alert_type := some AlertType.upper_breach
                  limit_value := some 30 } :=
  (((evaluate_breach_cases
      [{ sensor_id := "temp01", pattern := "sf/sensors/+/temperature"
         sensor_type := "temperature", is_active := true
         limits := [{ name := "c1", upper_limit := 30, lower_limit := 10
                      unit := "C", is_selected := true }] }]
      "temp01" 35 "C"
      { sensor_id := "temp01", pattern := "sf/sensors/+/temperature"
        sensor_type := "temperature", is_active := true
        limits := [{ name := "c1", upper_limit := 30, lower_limit := 10
                     unit := "C", is_selected := true }] }
      { name := "c1", upper_limit := 30, lower_limit := 10
        unit := "C", is_selected := true }
      (by decide) (by decide) (by decide)).1 rfl).1 (by decide))

/-! ## ACL Evaluator (`authorize` behind `POST /api/acl/check`)

The repository contains only the REST caller (`apiService.checkPermission`
and the ACLManagement view); the evaluator itself is not under src/, so it
is modelled from the specification (§4.1): filter the rules to those whose
pattern matches the topic under MQTT wildcard semantics, select the most
specific match (fewest wildcard tokens, then longest literal prefix), and
on a specificity tie let a deny on the action beat an allow; with no match
fall back to the default policy.  Topics and patterns are token lists
(slash-split). -/

/-- MQTT wildcard matching: `+` matches exactly one level, `#` matches
all remaining levels and is only a wildcard as the final token (a
non-final `#` can only match a literal `#` level). -/
def patternMatches : List String → List String → Bool
  | [], [] => true
  | ["#"], _ => true
  | "+" :: ps, _ :: ts => patternMatches ps ts
  | p :: ps, t :: ts => p == t && patternMatches ps ts
  | _, _ => false

def wildcardCount (p : List String) : Nat :=
  (p.filter (fun tok => tok == "+" || tok == "#")).length

def literalPrefixLen (p : List String) : Nat :=
  (p.takeWhile (fun tok => !(tok == "+" || tok == "#"))).length

inductive Action
  | publish
  | subscribe
deriving DecidableEq, Repr

structure Rule where
  pattern : List String
  allow : List Action
  deny : List Action
deriving DecidableEq, Repr

/-- Specificity key of a rule: wildcard count (fewer is more specific),
then literal-prefix length (longer is more specific). -/
def specKey (r : Rule) : Nat × Nat :=
  (wildcardCount r.pattern, literalPrefixLen r.pattern)

/-- `moreSpecific a b`: key `a` is strictly more specific than key `b`. -/
def moreSpecific (a b : Nat × Nat) : Bool :=
  decide (a.1 < b.1) || (a.1 == b.1 && decide (b.2 < a.2))

def chooseBetter (acc : Option (Nat × Nat)) (k : Nat × Nat) :
    Option (Nat × Nat) :=
  match acc with
  | none => some k
  | some b => if moreSpecific k b then some k else some b

/-- The most specific key among a list of keys. -/
def bestKey (ks : List (Nat × Nat)) : Option (Nat × Nat) :=
  ks.foldl chooseBetter none

def matchingRules (rules : List Rule) (topic : List String) : List Rule :=
  rules.filter (fun r => patternMatches r.pattern topic)

inductive Reason
  | noMatchingRule
  | explicitDeny
  | defaultDeny
deriving DecidableEq, Repr

inductive Decision
  | allowed
  | denied (reason : Reason)
deriving DecidableEq, Repr

structure Snapshot where
  rules : List Rule
  defaultAllow : Bool
deriving DecidableEq, Repr

/-- Modelled from the spec: the backend `authorize(user_id, topic,
action)` of the ACL Evaluator (§4.1), whose implementation is not in the
repository.  The snapshot holds the union of the principal's role rules
and custom permissions.  Among matching rules the most specific key is
selected; on a tie a deny on the action beats an allow; with no matching
rule the configured default policy decides. -/
def authorize (snap : Snapshot) (topic : List String) (act : Action) :
    Decision :=
  match bestKey ((matchingRules snap.rules topic).map specKey) with
  | none =>
    if snap.defaultAllow then Decision.allowed
    else Decision.denied Reason.noMatchingRule
  | some k =>
    if ((matchingRules snap.rules topic).filter
          (fun r => specKey r == k)).any (fun r => r.deny.contains act) then
      Decision.denied Reason.explicitDeny
    else if ((matchingRules snap.rules topic).filter
          (fun r => specKey r == k)).any (fun r => r.allow.contains act) then
      Decision.allowed
    else if snap.defaultAllow then Decision.allowed
    else Decision.denied Reason.defaultDeny

lemma moreSpecific_irrefl (a : Nat × Nat) : moreSpecific a a = false := by
  simp [moreSpecific]

lemma moreSpecific_trans {a b c : Nat × Nat} (hab : moreSpecific a b = true)
    (hbc : moreSpecific b c = true) : moreSpecific a c = true := by
  simp only [moreSpecific, Bool.or_eq_true, Bool.and_eq_true,
    decide_eq_true_eq, beq_iff_eq] at hab hbc ⊢
  omega

lemma eq_of_not_moreSpecific {a b : Nat × Nat}
    (hab : moreSpecific a b = false) (hba : moreSpecific b a = false) :
    a = b := by
  obtain ⟨a1, a2⟩ := a
  obtain ⟨b1, b2⟩ := b
  simp only [moreSpecific, Bool.or_eq_false_iff, Bool.and_eq_false_iff,
    decide_eq_false_iff_not, beq_eq_false_iff_ne, ne_eq, not_lt] at hab hba
  have h1 : a1 = b1 := by omega
  have h2 : a2 = b2 := by
    rcases hab.2 with h | h <;> rcases hba.2 with h' | h' <;> omega
  simp [h1, h2]

lemma foldl_chooseBetter_mem :
    ∀ (ks : List (Nat × Nat)) (acc : Option (Nat × Nat)) (k : Nat × Nat),
      List.foldl chooseBetter acc ks = some k → k ∈ ks ∨ acc = some k := by
  intro ks
  induction ks with
  | nil =>
    intro acc k h
    exact Or.inr h
  | cons k0 rest ih =>
    intro acc k h
    rcases ih (chooseBetter acc k0) k h with hk | hk
    · exact Or.inl (List.mem_cons_of_mem _ hk)
    · match acc with
      | none =>
        cases hk
        exact Or.inl (List.mem_cons_self _ _)
      | some b =>
        simp only [chooseBetter] at hk
        split at hk
        · cases hk
          exact Or.inl (List.mem_cons_self _ _)
        · exact Or.inr hk

lemma foldl_chooseBetter_best :
    ∀ (ks : List (Nat × Nat)) (acc : Option (Nat × Nat)) (k : Nat × Nat),
      List.foldl chooseBetter acc ks = some k →
      (∀ k' ∈ ks, moreSpecific k' k = false) ∧
        (∀ b, acc = some b → moreSpecific b k = false) := by
  intro ks
  induction ks with
  | nil =>
    intro acc k h
    refine ⟨by simp, fun b hb => ?_⟩
    rw [hb] at h
    cases h
    exact moreSpecific_irrefl k
  | cons k0 rest ih =>
    intro acc k h
    have ihres := ih (chooseBetter acc k0) k h
    have main : moreSpecific k0 k = false ∧
        (∀ b, acc = some b → moreSpecific b k = false) := by
      match acc with
      | none => exact ⟨ihres.2 k0 rfl, by simp⟩
      | some b =>
        by_cases hms : moreSpecific k0 b = true
        · have hk0 : moreSpecific k0 k = false :=
            ihres.2 k0 (by simp [chooseBetter, hms])
          refine ⟨hk0, fun b' hb' => ?_⟩
          cases hb'
          by_contra hbk
          have hbk' : moreSpecific b k = true := by
            rcases Bool.eq_false_or_eq_true (moreSpecific b k) with h' | h'
            · exact h'
            · exact absurd h' hbk
          have : moreSpecific k0 k = true := moreSpecific_trans hms hbk'
          rw [this] at hk0
          cases hk0
        · have hmsf : moreSpecific k0 b = false := Bool.eq_false_iff.mpr hms
          have hb : moreSpecific b k = false :=
            ihres.2 b (by simp [chooseBetter, hmsf])
          refine ⟨?_, fun b' hb' => ?_⟩
          · by_contra hk0
            have hk0' : moreSpecific k0 k = true := by
              rcases Bool.eq_false_or_eq_true (moreSpecific k0 k) with h' | h'
              · exact h'
              · exact absurd h' hk0
            rcases Bool.eq_false_or_eq_true (moreSpecific b k0) with h2 | h2
            · have : moreSpecific b k = true := moreSpecific_trans h2 hk0'
              rw [this] at hb
              cases hb
            · have heq : k0 = b := eq_of_not_moreSpecific hmsf h2
              rw [heq] at hk0'
              rw [hk0'] at hb
              cases hb
          · cases hb'
            exact hb
    refine ⟨fun k' hk' => ?_, main.2⟩
    rcases List.mem_cons.mp hk' with rfl | hk'
    · exact main.1
    · exact ihres.1 k' hk'

lemma bestKey_mem {ks : List (Nat × Nat)} {k : Nat × Nat}
    (h : bestKey ks = some k) : k ∈ ks := by
  rcases foldl_chooseBetter_mem ks none k h with hk | hk
  · exact hk
  · cases hk

lemma bestKey_best {ks : List (Nat × Nat)} {k : Nat × Nat}
    (h : bestKey ks = some k) : ∀ k' ∈ ks, moreSpecific k' k = false :=
  (foldl_chooseBetter_best ks none k h).1

lemma foldl_chooseBetter_isSome :
    ∀ (ks : List (Nat × Nat)) (b : Nat × Nat),
      (List.foldl chooseBetter (some b) ks).isSome = true := by
  intro ks
  induction ks with
  | nil => intro b; rfl
  | cons k0 rest ih =>
    intro b
    simp only [List.foldl_cons, chooseBetter]
    split <;> exact ih _

lemma bestKey_isSome (k0 : Nat × Nat) (ks : List (Nat × Nat)) :
    (bestKey (k0 :: ks)).isSome = true := by
  simp only [bestKey, List.foldl_cons, chooseBetter]
  exact foldl_chooseBetter_isSome ks k0

/-- C4: among the rules matching a query, the effective rule is a most
specific match, and on a specificity tie a deny on the action beats an
allow.  If `r` is a matching rule no matching rule is strictly more
specific than, then: a deny of the action by `r` makes the decision
Denied (explicit deny) even when equally specific rules allow it; and an
allow by `r` makes the decision Allowed provided no equally specific
matching rule denies the action. -/
theorem acl_most_specific_deny_wins (snap : Snapshot) (topic : List String)
    (act : Action) (r : Rule)
    (hr : r ∈ snap.rules) (hm : patternMatches r.pattern topic = true)
    (hmax : ∀ r' ∈ snap.rules, patternMatches r'.pattern topic = true →
      moreSpecific (specKey r') (specKey r) = false) :
    (act ∈ r.deny →
      authorize snap topic act = Decision.denied Reason.explicitDeny) ∧
    (act ∈ r.allow →
      (∀ r' ∈ snap.rules, patternMatches r'.pattern topic = true →
        specKey r' = specKey r → act ∉ r'.deny) →
      authorize snap topic act = Decision.allowed) := by
  have hms : r ∈ matchingRules snap.rules topic :=
    List.mem_filter.mpr ⟨hr, hm⟩
  obtain ⟨k, hk⟩ :
      ∃ k, bestKey ((matchingRules snap.rules topic).map specKey) = some k := by
    rcases hlist : (matchingRules snap.rules topic).map specKey with _ | ⟨k0, ks⟩
    · have hmem : specKey r ∈ (matchingRules snap.rules topic).map specKey :=
        List.mem_map_of_mem _ hms
      rw [hlist] at hmem
      cases hmem
    · exact Option.isSome_iff_exists.mp (bestKey_isSome k0 ks)
  obtain ⟨rk, hrkmem, hrk⟩ := List.mem_map.mp (bestKey_mem hk)
  have h1 : moreSpecific k (specKey r) = false := by
    rw [← hrk]
    exact hmax rk (List.mem_filter.mp hrkmem).1 (List.mem_filter.mp hrkmem).2
  have h2 : moreSpecific (specKey r) k = false :=
    bestKey_best hk (specKey r) (List.mem_map_of_mem _ hms)
  have hkr : specKey r = k := eq_of_not_moreSpecific h2 h1
  have htop : r ∈ (matchingRules snap.rules topic).filter
      (fun r' => specKey r' == k) :=
    List.mem_filter.mpr ⟨hms, by simp [hkr]⟩
  constructor
  · intro hdeny
    have hany : ((matchingRules snap.rules topic).filter
        (fun r' => specKey r' == k)).any (fun r' => r'.deny.contains act) = true :=
      List.any_eq_true.mpr ⟨r, htop, by simpa using hdeny⟩
    unfold authorize
    rw [hk]
    dsimp only
    rw [hany]
    simp
  · intro hallow hnodeny
    have hanyd : ((matchingRules snap.rules topic).filter
        (fun r' => specKey r' == k)).any (fun r' => r'.deny.contains act) = false := by
      simp only [List.any_eq_false]
      intro r' hr'
      have hmem := List.mem_filter.mp hr'
      have hinner := List.mem_filter.mp hmem.1
      have hkey : specKey r' = specKey r := by
        have hkk : specKey r' = k := by simpa using hmem.2
        rw [hkk, ← hkr]
      have hnot := hnodeny r' hinner.1 hinner.2 hkey
      simpa using hnot
    have hanya : ((matchingRules snap.rules topic).filter
        (fun r' => specKey r' == k)).any (fun r' => r'.allow.contains act) = true :=
      List.any_eq_true.mpr ⟨r, htop, by simpa using hallow⟩
    unfold authorize
    rw [hk]
    dsimp only
    rw [hanyd, hanya]
    simp

/-- Witness for C4: the spec's tie-break scenario — an allow rule on
`sf/sensors/+/temperature` and an explicit deny on
`sf/sensors/device1/temperature`, both for publish; on the topic
`sf/sensors/device1/temperature` the more specific deny wins. -/
theorem acl_most_specific_deny_wins_witness :
    authorize
        { rules := [{ pattern := ["sf", "sensors", "+", "temperature"]
                      allow := [Action.publish], deny := [] },
                    { pattern := ["sf", "sensors", "device1", "temperature"]
                      allow := [], deny := [Action.publish] }]
          defaultAllow := false }
        ["sf", "sensors", "device1", "temperature"] Action.publish =
      Decision.denied Reason.explicitDeny :=
  (acl_most_specific_deny_wins
      { rules := [{ pattern := ["sf", "sensors", "+", "temperature"]
                    allow := [Action.publish], deny := [] },
                  { pattern := ["sf", "sensors", "device1", "temperature"]
                    allow := [], deny := [Action.publish] }]
        defaultAllow := false }
      ["sf", "sensors", "device1", "temperature"] Action.publish
      { pattern := ["sf", "sensors", "device1", "temperature"]
        allow := [], deny := [Action.publish] }
      (by decide) (by decide) (by decide)).1 (by decide)

/-! ## Determinism and idempotence of `authorize` (C5)

Per the spec (§4.1) the only side effect of an authorization decision is
an append to the audit log; the rule snapshot is read, never written.
The call is modelled as explicit state passing over the snapshot and the
audit log. -/

structure AclState where
  snap : Snapshot
  audit : List (List String × Action × Decision)
deriving DecidableEq, Repr

/-- Modelled from the spec: one `authorize` call as a state transition
(§4.1): compute the decision from the rule snapshot and append it to the
append-only audit log; nothing else changes. -/
def authorizeCall (st : AclState) (topic : List String) (act : Action) :
    Decision × AclState :=
  (authorize st.snap topic act,
    { st with audit := st.audit ++ [(topic, act, authorize st.snap topic act)] })

/-- C5: `authorize` is deterministic and idempotent over a fixed rule
snapshot: a call leaves the snapshot unchanged, an immediately repeated
call returns the same decision and still leaves the snapshot unchanged,
and any two states sharing the snapshot (whatever their audit logs)
decide alike. -/
theorem authorize_deterministic_idempotent (st : AclState)
    (topic : List String) (act : Action) :
    (authorizeCall st topic act).2.snap = st.snap ∧
    (authorizeCall (authorizeCall st topic act).2 topic act).1 =
      (authorizeCall st topic act).1 ∧
    (authorizeCall (authorizeCall st topic act).2 topic act).2.snap = st.snap ∧
    (∀ st' : AclState, st'.snap = st.snap →
      (authorizeCall st' topic act).1 = (authorizeCall st topic act).1) := by
  refine ⟨rfl, rfl, rfl, fun st' h => ?_⟩
  simp [authorizeCall, h]

/-- Witness for C5: two states with the same empty snapshot but different
audit logs decide alike on a concrete query. -/
theorem authorize_deterministic_idempotent_witness :
    (authorizeCall
        { snap := { rules := [], defaultAllow := false }
          audit := [(["x"], Action.publish, Decision.allowed)] }
        ["x"] Action.publish).1 =
      (authorizeCall
          { snap := { rules := [], defaultAllow := false }, audit := [] }
          ["x"] Action.publish).1 :=
  (authorize_deterministic_idempotent
      { snap := { rules := [], defaultAllow := false }, audit := [] }
      ["x"] Action.publish).2.2.2
    { snap := { rules := [], defaultAllow := false }
      audit := [(["x"], Action.publish, Decision.allowed)] } rfl

/-! ## WebSocket envelope `type` tags (C6)

Every JSON envelope a client sends carries a literal `type` tag fixed at
its call site; every envelope consumed is dispatched on its `type` by the
`handleMessage` switch (plus the Dashboard's registered handlers, which
receive their types through the generic `notifyHandlers` dispatch).  The
tags below are embedded one per call site / switch case. -/

/-- `subscribeMQTT` of src/frontend/src/services/websocket.js -/
def subscribeMQTTTag : String := "subscribe"

/-- `unsubscribeMQTT` of src/frontend/src/services/websocket.js -/
def unsubscribeMQTTTag : String := "unsubscribe"

/-- `publishMQTT` of src/frontend/src/services/websocket.js -/
def publishMQTTTag : String := "publish"

/-- `getMQTTStatus` of src/frontend/src/services/websocket.js -/
def getMQTTStatusTag : String := "get_status"

/-- `getAllUsers` of src/frontend/src/services/websocket.js -/
def getAllUsersTag : String := "get_all_users"

/-- `ping` of src/frontend/src/services/websocket.js -/
def pingTag : String := "ping"

/-- the `onopen` ping of src/src/services/websocket.js -/
def onopenPingTag : String := "ping"

/-- `subscribe` of src/src/services/websocket.js -/
def subscribeTag : String := "subscribe"

/-- `requestStatus` of src/src/services/websocket.js -/
def requestStatusTag : String := "get_status"

/-- `requestSystemStatus` of the Dashboard view -/
def requestSystemStatusTag : String := "get_status"

/-- `requestUsersList` of the Dashboard view -/
def requestUsersListTag : String := "get_all_users"

/-- `requestSystemInfo` of the Dashboard view -/
def requestSystemInfoTag : String := "get_system_info"

/-- the two `reloadConfigurations` sends of the Dashboard view -/
def reloadAclTag : String := "reload_acl"

def reloadSsTag : String := "reload_ss"

/-- Every `type` tag the client code sends to the relay, one entry per
`send({type: ...})` call site under src/. -/
def clientSentTags : List String :=
  [subscribeMQTTTag, unsubscribeMQTTTag, publishMQTTTag, getMQTTStatusTag,
   getAllUsersTag, pingTag, onopenPingTag, subscribeTag, requestStatusTag,
   requestSystemStatusTag, requestUsersListTag, requestSystemInfoTag,
   reloadAclTag, reloadSsTag]

/-- The `case` labels of `handleMessage` in
src/frontend/src/services/websocket.js. -/
def frontendHandledTags : List String :=
  ["pong", "connection_status", "sensor_data", "mqtt_status", "publish_ack",
   "subscription_ack", "unsubscription_ack", "permission_revoked",
   "system_alert", "device_status", "mqtt_publish"]

/-- The `case` labels of `handleMessage` in
src/src/services/websocket.js. -/
def srcHandledTags : List String :=
  ["pong", "sensor_data", "system_alert", "device_status", "mqtt_publish"]

/-- The message types the Dashboard view registers handlers for via
`webSocketService.on`. -/
def dashboardHandlerTags : List String :=
  ["connection_status", "sensor_data", "system_alert", "publish_ack",
   "users_list", "status", "system_info", "device_status", "mqtt_status"]

/-- The claim's client→server set, verbatim. -/
def claimedClientTags : List String :=
  ["subscribe", "unsubscribe", "publish", "get_status", "ping"]

/-- The claim's server→client set, verbatim. -/
def claimedServerTags : List String :=
  ["sensor_data", "publish_ack", "subscription_ack", "unsubscription_ack",
   "permission_revoked", "system_alert", "mqtt_status", "pong"]

/-- The client→server tags actually occurring in the source: the claimed
five plus `get_all_users` (websocket service) and `get_system_info`,
`reload_acl`, `reload_ss` (Dashboard view). -/
def actualClientTags : List String :=
  claimedClientTags ++ ["get_all_users", "get_system_info", "reload_acl",
    "reload_ss"]

/-- The server→client tags the client code handles: the claimed eight
plus the `connection_status`, `device_status` and `mqtt_publish` switch
cases and the Dashboard's `users_list`, `status` and `system_info`
handlers. -/
def actualServerTags : List String :=
  claimedServerTags ++ ["connection_status", "device_status",
    "mqtt_publish", "users_list", "status", "system_info"]

/-- Counterexample to C6 as stated: the envelope built by `getAllUsers`
in src/frontend/src/services/websocket.js is sent to the relay with type
`get_all_users`, which is not in the claimed client→server set. -/
theorem claimed_client_tags_incomplete :
    getAllUsersTag ∈ clientSentTags ∧ getAllUsersTag ∉ claimedClientTags := by
  decide

/-- C6 (amended): every `type` tag the client sends is drawn from the
claimed five plus `get_all_users`, `get_system_info`, `reload_acl` and
`reload_ss`; every tag the client-side dispatch handles is drawn from
the claimed eight plus `connection_status`, `device_status`,
`mqtt_publish`, `users_list`, `status` and `system_info` (any other
received tag falls to the default logging case of `handleMessage`). -/
theorem envelope_tags_enumerated :
    clientSentTags.all (fun t => actualClientTags.contains t) = true ∧
    (frontendHandledTags ++ srcHandledTags ++ dashboardHandlerTags).all
      (fun t => actualServerTags.contains t) = true := by
  decide

end SmartFactory
